import Mathlib

/-!
Verification of the SerperScrapeTool repository
(`src/serper_scrape_tool_maz/tool.py`, class `SerperScrapeToolMaz`,
method `_run`).

The method is shallowly embedded: the Python string and dict operations
become Lean functions over `String` and a `Json` inductive; the two
external effects (`os.getenv("SERPER_API_KEY")` and the
`requests.post` / `raise_for_status` / `response.json()` round trip)
become an explicit `ScrapeEnv` record describing their behaviour for this
one invocation.  `SerperScrapeToolMaz._run` returns the formatted string
together with the list of HTTP POST requests transmitted, so that claims
about "zero network calls" and "exactly one request" are statable.
-/

namespace SerperScrape

/-- Python `s.startswith(p)`: `p` is a prefix of `s` (on code points). -/
def pyStartsWith (s p : String) : Bool :=
  p.data.isPrefixOf s.data

/-- `p` occurs as a contiguous sublist of `l`. -/
def listIsInfix (p : List Char) : List Char → Bool
  | [] => p.isPrefixOf []
  | c :: t => p.isPrefixOf (c :: t) || listIsInfix p t

/-- Python `p in s` for strings: substring containment. -/
def pyInStr (p s : String) : Bool :=
  listIsInfix p.data s.data

/-- tool.py lines 53-54: `if not url.startswith(("http://", "https://")):
url = f"https://{url}"`. -/
def normalizeUrl (url : String) : String :=
  if pyStartsWith url "http://" || pyStartsWith url "https://" then url
  else "https://" ++ url

/-- A JSON value as produced by Python `response.json()` (that is, by
`json.loads` on the response body).  Numbers are modelled as integers:
no claim involves numeric content, and float formatting is irrelevant
here. -/
inductive Json where
  | null : Json
  | bool (b : Bool) : Json
  | num (n : Int) : Json
  | str (s : String) : Json
  | arr (elems : List Json) : Json
  | obj (fields : List (String × Json)) : Json

mutual

/-- Python `str(...)` / `repr(...)` of a value obtained from `json.loads`
(used by the f-string `f"... Response: {data}"` at tool.py line 79).
Dicts print as `\x7b'k': v\x7d`, lists as `[v, w]`, strings with single
quotes, booleans as `True`/`False`, `null` as `None`.  (Escaping of
quote/backslash characters inside strings is elided; no claim exercises
it.) -/
def Json.pyStr : Json → String
  | .null => "None"
  | .bool b => if b then "True" else "False"
  | .num n => toString n
  | .str s => "\x27" ++ s ++ "\x27"
  | .arr elems => "[" ++ pyStrElems elems ++ "]"
  | .obj fields => "\x7b" ++ pyStrFields fields ++ "\x7d"

/-- Comma-separated `str(...)` of the elements of a Python list. -/
def pyStrElems : List Json → String
  | [] => ""
  | [v] => v.pyStr
  | v :: rest => v.pyStr ++ ", " ++ pyStrElems rest

/-- Comma-separated `'key': str(value)` entries of a Python dict. -/
def pyStrFields : List (String × Json) → String
  | [] => ""
  | [(k, v)] => "\x27" ++ k ++ "\x27: " ++ v.pyStr
  | (k, v) :: rest => "\x27" ++ k ++ "\x27: " ++ v.pyStr ++ ", " ++ pyStrFields rest

end

/-- The Python exceptions distinguished by the three `except` clauses at
tool.py lines 81-86. -/
inductive PyExc where
  /-- `requests.exceptions.RequestException`: a connection failure or
  timeout raised by `requests.post`, or the `HTTPError` raised by
  `response.raise_for_status()` on a non-2xx status. -/
  | requestException (detail : String)
  /-- `json.JSONDecodeError` raised by `response.json()` when the body is
  not valid JSON. -/
  | jsonDecodeError (detail : String)
  /-- Any other exception (e.g. a `TypeError` raised while processing a
  response whose `text` field is not a string). -/
  | otherException (detail : String)

/-- Behaviour of the remote round trip
(`requests.post` + `raise_for_status` + `response.json()`) on this
invocation. -/
inductive RemoteBehavior where
  /-- The request could not complete: connection failure, timeout, or
  non-2xx status (`raise_for_status`).  Raises a
  `requests.exceptions.RequestException` carrying `detail`. -/
  | transportFailure (detail : String)
  /-- The request completed with a 2xx status but the body is not valid
  JSON: `response.json()` raises `json.JSONDecodeError` carrying
  `detail`. -/
  | parseFailure (detail : String)
  /-- The request completed with a 2xx status and the body parsed as the
  JSON value `data`. -/
  | parsed (data : Json)

/-- The two external dependencies of one `_run` invocation. -/
structure ScrapeEnv where
  /-- `os.getenv("SERPER_API_KEY")`: `none` when the variable is absent,
  `some v` (possibly `some ""`) when present with value `v`. -/
  apiKey : Option String
  /-- Behaviour of the HTTP round trip, were it to be issued. -/
  remote : RemoteBehavior

/-- The JSON request body of tool.py line 56:
`json.dumps(\x7b"url": url, "includeMarkdown": include_markdown\x7d)`. -/
structure Payload where
  url : String
  includeMarkdown : Bool

/-- One HTTP POST request as transmitted by tool.py line 61. -/
structure Request where
  /-- `serper_url = "https://scrape.serper.dev"` (line 50). -/
  endpoint : String
  /-- The `X-API-KEY` header (line 58). -/
  xApiKey : String
  /-- The `Content-Type` header (line 58). -/
  contentType : String
  /-- The JSON body (line 56). -/
  body : Payload

/-- The missing-credential message of tool.py line 47. -/
def missingKeyMsg : String :=
  "Error: SERPER_API_KEY not found in environment variables. Please add it to your .env file."

/-- Python `"text" in data` (tool.py line 68) for a value obtained from
`json.loads`: key membership for dicts, element membership for lists,
substring containment for strings; a `TypeError` for the remaining
types (`int`, `bool`, `None`), caught by the generic `except Exception`
clause. -/
def jsonMember (key : String) : Json → Except PyExc Bool
  | .obj fields => .ok (fields.any fun p => p.1 == key)
  | .arr elems =>
      .ok (elems.any fun v => match v with | .str s => s == key | _ => false)
  | .str s => .ok (pyInStr key s)
  | _ => .error (.otherException "argument of type is not iterable")

/-- Python `data["text"]` (tool.py line 69): dict lookup; a `TypeError`
for any non-dict value (string/list indices must be integers). -/
def jsonIndex (key : String) : Json → Except PyExc Json
  | .obj fields =>
      match fields.lookup key with
      | some v => .ok v
      | none => .error (.otherException ("KeyError: " ++ key))
  | _ => .error (.otherException "indices must be integers")

/-- The success summary of tool.py lines 72-75, for a string `content`. -/
def successString (url : String) (include_markdown : Bool) (content : String) : String :=
  "**Scraped from:** " ++ url ++ "\n" ++
  "**Markdown formatting:** " ++ (if include_markdown then "Enabled" else "Disabled") ++ "\n" ++
  "**Content length:** " ++ toString content.length ++ " characters\n\n" ++
  "**Content:**\n" ++ content

/-- tool.py lines 72-75 applied to the extracted `content = data["text"]`.
When `content` is a string the four-line summary is produced.  A list or
dict passes `len(content)` but raises a `TypeError` at
`"**Content:**\n" + content`; an int, bool or `None` already raises a
`TypeError` at `len(content)`.  Both are caught by `except Exception`. -/
def formatContent (url : String) (include_markdown : Bool) : Json → Except PyExc String
  | .str content => .ok (successString url include_markdown content)
  | .arr _ => .error (.otherException "can only concatenate str")
  | .obj _ => .error (.otherException "can only concatenate str")
  | _ => .error (.otherException "object has no len")

/-- The empty-result message of tool.py line 79:
`f"No content found for URL: \x7burl\x7d. Response: \x7bdata\x7d"`. -/
def noContentMsg (url : String) (data : Json) : String :=
  "No content found for URL: " ++ url ++ ". Response: " ++ data.pyStr

namespace SerperScrapeToolMaz

/-- The body of the `try` block of `SerperScrapeToolMaz._run`
(tool.py lines 44-79) after the credential check and URL normalization:
takes the already-normalized URL and the remote behaviour, and returns
either the string the `try` block returns or the exception it raises. -/
def tryBody (url : String) (include_markdown : Bool) :
    RemoteBehavior → Except PyExc String
  | .transportFailure e => .error (.requestException e)
  | .parseFailure e => .error (.jsonDecodeError e)
  | .parsed data =>
      match jsonMember "text" data with
      | .error e => .error e
      | .ok false => .ok (noContentMsg url data)
      | .ok true =>
          match jsonIndex "text" data with
          | .error e => .error e
          | .ok content => formatContent url include_markdown content

/-- The `except` clauses of tool.py lines 81-86.  By the time any
exception can be raised, the local variable `url` has been rebound to
the normalized URL (lines 53-54 run before the request), so the
handlers interpolate the normalized URL. -/
def handleExc (url : String) : PyExc → String
  | .requestException e => "Network error while scraping " ++ url ++ ": " ++ e
  | .jsonDecodeError e => "JSON parsing error from Serper API: " ++ e
  | .otherException e => "Unexpected error while scraping " ++ url ++ ": " ++ e

/-- `SerperScrapeToolMaz._run` (tool.py lines 32-86), instrumented with
the list of HTTP POST requests it transmits.  The first component is the
returned string; the second is the request trace (empty when the
credential check fails, a single request otherwise — line 61 runs at
most once, with no retry). -/
def _run (url : String) (include_markdown : Bool) (env : ScrapeEnv) :
    String × List Request :=
  match env.apiKey with
  | none => (missingKeyMsg, [])
  | some api_key =>
      -- `if not api_key:` — Python falsiness: `""` is as missing.
      if api_key = "" then (missingKeyMsg, [])
      else
        let nurl := normalizeUrl url
        let req : Request :=
          { endpoint := "https://scrape.serper.dev"
            xApiKey := api_key
            contentType := "application/json"
            body := { url := nurl, includeMarkdown := include_markdown } }
        match tryBody nurl include_markdown env.remote with
        | .ok s => (s, [req])
        | .error e => (handleExc nurl e, [req])

end SerperScrapeToolMaz

/-! ### Helper lemmas -/

theorem pyStartsWith_append_self (p s : String) : pyStartsWith (p ++ s) p = true := by
  unfold pyStartsWith
  rw [String.data_append, List.isPrefixOf_iff_prefix]
  exact List.prefix_append _ _

theorem normalizeUrl_of_no_scheme {url : String}
    (h1 : pyStartsWith url "http://" = false)
    (h2 : pyStartsWith url "https://" = false) :
    normalizeUrl url = "https://" ++ url := by
  simp [normalizeUrl, h1, h2]

theorem lookup_imp_any {fields : List (String × Json)} {key : String} {v : Json}
    (h : List.lookup key fields = some v) :
    (fields.any fun p => p.1 == key) = true := by
  induction fields with
  | nil => simp [List.lookup] at h
  | cons p rest ih =>
    obtain ⟨a, b⟩ := p
    by_cases hak : key = a
    · subst hak
      simp
    · have hf : (key == a) = false := beq_eq_false_iff_ne.mpr hak
      have h2 : List.lookup key rest = some v := by
        simpa [List.lookup, hf] using h
      have hfa : (a == key) = false := beq_eq_false_iff_ne.mpr (Ne.symm hak)
      simp [List.any_cons, hfa, ih h2]

/-- Evaluation of `_run` once the credential check has passed: the URL is
normalized, exactly one request is transmitted, and the result is the
`try` body's return value or its handled exception. -/
theorem run_eq_of_key (url k : String) (im : Bool) (rb : RemoteBehavior) (hk : k ≠ "") :
    SerperScrapeToolMaz._run url im ⟨some k, rb⟩ =
      ((match SerperScrapeToolMaz.tryBody (normalizeUrl url) im rb with
        | .ok s => s
        | .error e => SerperScrapeToolMaz.handleExc (normalizeUrl url) e),
       [⟨"https://scrape.serper.dev", k, "application/json", ⟨normalizeUrl url, im⟩⟩]) := by
  simp only [SerperScrapeToolMaz._run]
  rw [if_neg hk]
  cases htb : SerperScrapeToolMaz.tryBody (normalizeUrl url) im rb <;> simp [htb]

theorem any_eq_false_of_lookup_none {fields : List (String × Json)} {key : String}
    (h : List.lookup key fields = none) :
    (fields.any fun p => p.1 == key) = false := by
  induction fields with
  | nil => rfl
  | cons p rest ih =>
    obtain ⟨a, b⟩ := p
    by_cases hak : key = a
    · subst hak
      simp [List.lookup] at h
    · have hf : (key == a) = false := beq_eq_false_iff_ne.mpr hak
      have h2 : List.lookup key rest = none := by
        simpa [List.lookup, hf] using h
      have hfa : (a == key) = false := beq_eq_false_iff_ne.mpr (Ne.symm hak)
      simp [List.any_cons, hfa, ih h2]

/-- The `try` body always either returns a success summary, returns the
empty-result message, or raises one of the modelled exceptions. -/
theorem tryBody_shape (u : String) (im : Bool) (rb : RemoteBehavior) :
    (∃ c, SerperScrapeToolMaz.tryBody u im rb = .ok (successString u im c)) ∨
    (∃ d, SerperScrapeToolMaz.tryBody u im rb = .ok (noContentMsg u d)) ∨
    (∃ e, SerperScrapeToolMaz.tryBody u im rb = .error e) := by
  cases rb with
  | transportFailure e => exact Or.inr (Or.inr ⟨_, rfl⟩)
  | parseFailure e => exact Or.inr (Or.inr ⟨_, rfl⟩)
  | parsed data =>
    cases data with
    | null => exact Or.inr (Or.inr ⟨_, rfl⟩)
    | bool b => exact Or.inr (Or.inr ⟨_, rfl⟩)
    | num n => exact Or.inr (Or.inr ⟨_, rfl⟩)
    | str s =>
      cases h : pyInStr "text" s with
      | true =>
        refine Or.inr (Or.inr ⟨.otherException "indices must be integers", ?_⟩)
        simp [SerperScrapeToolMaz.tryBody, jsonMember, jsonIndex, h]
      | false =>
        refine Or.inr (Or.inl ⟨.str s, ?_⟩)
        simp [SerperScrapeToolMaz.tryBody, jsonMember, h, noContentMsg]
    | arr elems =>
      cases h : (elems.any fun v => match v with | .str s => s == "text" | _ => false) with
      | true =>
        refine Or.inr (Or.inr ⟨.otherException "indices must be integers", ?_⟩)
        simp [SerperScrapeToolMaz.tryBody, jsonMember, jsonIndex, h]
      | false =>
        refine Or.inr (Or.inl ⟨.arr elems, ?_⟩)
        simp [SerperScrapeToolMaz.tryBody, jsonMember, h, noContentMsg]
    | obj fields =>
      cases h : (fields.any fun p => p.1 == "text") with
      | true =>
        cases hl : List.lookup "text" fields with
        | none =>
          refine Or.inr (Or.inr ⟨.otherException ("KeyError: " ++ "text"), ?_⟩)
          simp [SerperScrapeToolMaz.tryBody, jsonMember, jsonIndex, h, hl]
        | some v =>
          cases v with
          | str c =>
            refine Or.inl ⟨c, ?_⟩
            simp [SerperScrapeToolMaz.tryBody, jsonMember, jsonIndex, formatContent, h, hl]
          | null =>
            refine Or.inr (Or.inr ⟨.otherException "object has no len", ?_⟩)
            simp [SerperScrapeToolMaz.tryBody, jsonMember, jsonIndex, formatContent, h, hl]
          | bool b =>
            refine Or.inr (Or.inr ⟨.otherException "object has no len", ?_⟩)
            simp [SerperScrapeToolMaz.tryBody, jsonMember, jsonIndex, formatContent, h, hl]
          | num n =>
            refine Or.inr (Or.inr ⟨.otherException "object has no len", ?_⟩)
            simp [SerperScrapeToolMaz.tryBody, jsonMember, jsonIndex, formatContent, h, hl]
          | arr es =>
            refine Or.inr (Or.inr ⟨.otherException "can only concatenate str", ?_⟩)
            simp [SerperScrapeToolMaz.tryBody, jsonMember, jsonIndex, formatContent, h, hl]
          | obj fs =>
            refine Or.inr (Or.inr ⟨.otherException "can only concatenate str", ?_⟩)
            simp [SerperScrapeToolMaz.tryBody, jsonMember, jsonIndex, formatContent, h, hl]
      | false =>
        refine Or.inr (Or.inl ⟨.obj fields, ?_⟩)
        simp [SerperScrapeToolMaz.tryBody, jsonMember, h, noContentMsg]

/-! ### Claim theorems -/

/-- C2: whenever the `SERPER_API_KEY` credential is absent from the
environment, `_run` returns exactly the missing-credential message and
transmits zero HTTP requests. -/
theorem run_missing_key (url : String) (im : Bool) (env : ScrapeEnv)
    (h : env.apiKey = none) :
    (SerperScrapeToolMaz._run url im env).1 =
      "Error: SERPER_API_KEY not found in environment variables. Please add it to your .env file." ∧
    (SerperScrapeToolMaz._run url im env).2 = [] := by
  obtain ⟨key, rb⟩ := env
  simp only at h
  subst h
  exact ⟨rfl, rfl⟩

/-- C2 witness. -/
theorem run_missing_key_witness :
    (SerperScrapeToolMaz._run "example.com" true ⟨none, .parsed .null⟩).1 =
      "Error: SERPER_API_KEY not found in environment variables. Please add it to your .env file." ∧
    (SerperScrapeToolMaz._run "example.com" true ⟨none, .parsed .null⟩).2 = [] :=
  run_missing_key "example.com" true ⟨none, .parsed .null⟩ rfl

/-- C9: a `SERPER_API_KEY` present but equal to the empty string is
treated exactly as an absent credential (the check `if not api_key:` is
on Python falsiness): the missing-credential message is returned and no
request is transmitted. -/
theorem run_empty_key (url : String) (im : Bool) (env : ScrapeEnv)
    (h : env.apiKey = some "") :
    (SerperScrapeToolMaz._run url im env).1 =
      "Error: SERPER_API_KEY not found in environment variables. Please add it to your .env file." ∧
    (SerperScrapeToolMaz._run url im env).2 = [] := by
  obtain ⟨key, rb⟩ := env
  simp only at h
  subst h
  exact ⟨rfl, rfl⟩

/-- C9 witness. -/
theorem run_empty_key_witness :
    (SerperScrapeToolMaz._run "example.com" true ⟨some "", .parsed .null⟩).1 =
      "Error: SERPER_API_KEY not found in environment variables. Please add it to your .env file." ∧
    (SerperScrapeToolMaz._run "example.com" true ⟨some "", .parsed .null⟩).2 = [] :=
  run_empty_key "example.com" true ⟨some "", .parsed .null⟩ rfl

/-- C5: when the response body is not valid JSON (the parse step fails),
`_run` returns the string `"JSON parsing error from Serper API: "`
followed by the underlying error detail. -/
theorem run_json_parse_error (url k e : String) (im : Bool) (hk : k ≠ "") :
    (SerperScrapeToolMaz._run url im ⟨some k, .parseFailure e⟩).1 =
      "JSON parsing error from Serper API: " ++ e := by
  rw [run_eq_of_key url k im _ hk]
  rfl

/-- C5 witness. -/
theorem run_json_parse_error_witness :
    (("K" : String) ≠ "") ∧
    (SerperScrapeToolMaz._run "example.com" true ⟨some "K", .parseFailure "Expecting value"⟩).1 =
      "JSON parsing error from Serper API: " ++ "Expecting value" :=
  ⟨by decide, run_json_parse_error "example.com" "K" "Expecting value" true (by decide)⟩

/-- C7: when the HTTP request cannot complete (connection failure,
timeout, or the non-2xx status raised by `raise_for_status`), `_run`
returns `"Network error while scraping \x7bnormalized url\x7d: \x7bdetail\x7d"`
— containing the normalized target URL — and transmits exactly one
request (no retry). -/
theorem run_network_error (url k e : String) (im : Bool) (hk : k ≠ "") :
    (SerperScrapeToolMaz._run url im ⟨some k, .transportFailure e⟩).1 =
      "Network error while scraping " ++ normalizeUrl url ++ ": " ++ e ∧
    (SerperScrapeToolMaz._run url im ⟨some k, .transportFailure e⟩).2.length = 1 := by
  rw [run_eq_of_key url k im _ hk]
  exact ⟨rfl, rfl⟩

/-- C7 witness. -/
theorem run_network_error_witness :
    (("K" : String) ≠ "") ∧
    (SerperScrapeToolMaz._run "example.com" true ⟨some "K", .transportFailure "connection refused"⟩).1 =
      "Network error while scraping " ++ normalizeUrl "example.com" ++ ": " ++ "connection refused" ∧
    (SerperScrapeToolMaz._run "example.com" true ⟨some "K", .transportFailure "connection refused"⟩).2.length = 1 :=
  ⟨by decide, run_network_error "example.com" "K" "connection refused" true (by decide)⟩

/-- C1: for every url, every include_markdown value, and every behaviour
of the environment lookup, the HTTP POST and the response parsing, `_run`
returns a string — one of the enumerated outcome messages — and never
propagates a raised exception to the caller. -/
theorem run_total (url : String) (im : Bool) (env : ScrapeEnv) :
    (SerperScrapeToolMaz._run url im env).1 = missingKeyMsg ∨
    (∃ c, (SerperScrapeToolMaz._run url im env).1 =
      successString (normalizeUrl url) im c) ∨
    (∃ e, (SerperScrapeToolMaz._run url im env).1 =
      "Network error while scraping " ++ normalizeUrl url ++ ": " ++ e) ∨
    (∃ e, (SerperScrapeToolMaz._run url im env).1 =
      "JSON parsing error from Serper API: " ++ e) ∨
    (∃ d, (SerperScrapeToolMaz._run url im env).1 =
      noContentMsg (normalizeUrl url) d) ∨
    (∃ e, (SerperScrapeToolMaz._run url im env).1 =
      "Unexpected error while scraping " ++ normalizeUrl url ++ ": " ++ e) := by
  obtain ⟨key, rb⟩ := env
  cases key with
  | none => exact Or.inl rfl
  | some k =>
    by_cases hk : k = ""
    · subst hk
      exact Or.inl rfl
    · rw [run_eq_of_key url k im rb hk]
      rcases tryBody_shape (normalizeUrl url) im rb with ⟨c, hc⟩ | ⟨d, hd⟩ | ⟨e, he⟩
      · exact Or.inr (Or.inl ⟨c, by rw [hc]⟩)
      · exact Or.inr (Or.inr (Or.inr (Or.inr (Or.inl ⟨d, by rw [hd]⟩))))
      · cases e with
        | requestException s =>
          exact Or.inr (Or.inr (Or.inl ⟨s, by rw [he]; rfl⟩))
        | jsonDecodeError s =>
          exact Or.inr (Or.inr (Or.inr (Or.inl ⟨s, by rw [he]; rfl⟩)))
        | otherException s =>
          exact Or.inr (Or.inr (Or.inr (Or.inr (Or.inr ⟨s, by rw [he]; rfl⟩))))

/-- C3: for every url lacking an exact `http://` or `https://` prefix,
the transmitted request body's `url` field is `"https://"` prepended to
the input, and a successful summary echoes that same normalized URL. -/
theorem run_normalizes_schemeless (url k : String) (im : Bool) (rb : RemoteBehavior)
    (h1 : pyStartsWith url "http://" = false)
    (h2 : pyStartsWith url "https://" = false)
    (hk : k ≠ "") :
    ((SerperScrapeToolMaz._run url im ⟨some k, rb⟩).2.map fun r => r.body.url) =
      ["https://" ++ url] ∧
    (∀ fields c, rb = .parsed (.obj fields) →
      List.lookup "text" fields = some (.str c) →
      (SerperScrapeToolMaz._run url im ⟨some k, rb⟩).1 =
        successString ("https://" ++ url) im c) := by
  have hn := normalizeUrl_of_no_scheme h1 h2
  constructor
  · rw [run_eq_of_key url k im rb hk]
    simp [hn]
  · intro fields c hrb hc
    subst hrb
    rw [run_eq_of_key url k im _ hk]
    have hany := lookup_imp_any hc
    simp [SerperScrapeToolMaz.tryBody, jsonMember, jsonIndex, formatContent, hany, hc, hn]

/-- C3 witness. -/
theorem run_normalizes_schemeless_witness :
    pyStartsWith "example.com" "http://" = false ∧
    pyStartsWith "example.com" "https://" = false ∧
    (("K" : String) ≠ "") ∧
    ((SerperScrapeToolMaz._run "example.com" true
        ⟨some "K", .parsed (.obj [("text", Json.str "Hi")])⟩).2.map fun r => r.body.url) =
      ["https://" ++ "example.com"] ∧
    (SerperScrapeToolMaz._run "example.com" true
        ⟨some "K", .parsed (.obj [("text", Json.str "Hi")])⟩).1 =
      successString ("https://" ++ "example.com") true "Hi" := by
  have h := run_normalizes_schemeless "example.com" "K" true
    (.parsed (.obj [("text", Json.str "Hi")])) (by decide) (by decide) (by decide)
  exact ⟨by decide, by decide, by decide, h.1, h.2 [("text", Json.str "Hi")] "Hi" rfl rfl⟩

/-- C4: for every url, markdown flag and remote JSON object whose `text`
field holds the string `c`, `_run` returns exactly the four-line summary
followed by a blank line and `c` verbatim. -/
theorem run_success_format (url k c : String) (im : Bool) (fields : List (String × Json))
    (hk : k ≠ "") (hc : List.lookup "text" fields = some (.str c)) :
    (SerperScrapeToolMaz._run url im ⟨some k, .parsed (.obj fields)⟩).1 =
      "**Scraped from:** " ++ normalizeUrl url ++ "\n" ++
      "**Markdown formatting:** " ++ (if im then "Enabled" else "Disabled") ++ "\n" ++
      "**Content length:** " ++ toString c.length ++ " characters\n\n" ++
      "**Content:**\n" ++ c := by
  rw [run_eq_of_key url k im _ hk]
  have hany := lookup_imp_any hc
  simp [SerperScrapeToolMaz.tryBody, jsonMember, jsonIndex, formatContent, hany, hc,
    successString]

/-- C4 witness (the spec's `Hello World` example, 11 characters). -/
theorem run_success_format_witness :
    (("K" : String) ≠ "") ∧
    List.lookup "text" [("text", Json.str "Hello World")] = some (Json.str "Hello World") ∧
    (SerperScrapeToolMaz._run "example.com" true
        ⟨some "K", .parsed (.obj [("text", Json.str "Hello World")])⟩).1 =
      "**Scraped from:** " ++ normalizeUrl "example.com" ++ "\n" ++
      "**Markdown formatting:** " ++ (if true then "Enabled" else "Disabled") ++ "\n" ++
      "**Content length:** " ++ toString ("Hello World".length) ++ " characters\n\n" ++
      "**Content:**\n" ++ "Hello World" :=
  ⟨by decide, rfl,
   run_success_format "example.com" "K" "Hello World" true
     [("text", Json.str "Hello World")] (by decide) rfl⟩

/-- C6: when the response parses as a JSON object with no `text` key,
`_run` returns exactly the empty-result message echoing the normalized
URL and the parsed object. -/
theorem run_no_content (url k : String) (im : Bool) (fields : List (String × Json))
    (hk : k ≠ "") (hmiss : List.lookup "text" fields = none) :
    (SerperScrapeToolMaz._run url im ⟨some k, .parsed (.obj fields)⟩).1 =
      "No content found for URL: " ++ normalizeUrl url ++ ". Response: " ++
        Json.pyStr (.obj fields) := by
  rw [run_eq_of_key url k im _ hk]
  have hany := any_eq_false_of_lookup_none hmiss
  simp [SerperScrapeToolMaz.tryBody, jsonMember, hany, noContentMsg]

/-- C6 witness (the spec's empty-object example). -/
theorem run_no_content_witness :
    (("K" : String) ≠ "") ∧
    List.lookup "text" ([] : List (String × Json)) = none ∧
    (SerperScrapeToolMaz._run "example.com" true ⟨some "K", .parsed (.obj [])⟩).1 =
      "No content found for URL: " ++ normalizeUrl "example.com" ++ ". Response: " ++
        Json.pyStr (.obj []) :=
  ⟨by decide, rfl, run_no_content "example.com" "K" true [] (by decide) rfl⟩

/-- C8: normalization is idempotent — a url already carrying `http://`
or `https://` is returned unchanged, and normalizing twice equals
normalizing once. -/
theorem normalizeUrl_idempotent :
    (∀ url : String,
      pyStartsWith url "http://" = true ∨ pyStartsWith url "https://" = true →
      normalizeUrl url = url) ∧
    (∀ url : String, normalizeUrl (normalizeUrl url) = normalizeUrl url) := by
  constructor
  · intro url h
    rcases h with h | h <;> simp [normalizeUrl, h]
  · intro url
    cases h1 : pyStartsWith url "http://" with
    | true => simp [normalizeUrl, h1]
    | false =>
      cases h2 : pyStartsWith url "https://" with
      | true => simp [normalizeUrl, h2]
      | false =>
        rw [normalizeUrl_of_no_scheme h1 h2]
        have hp := pyStartsWith_append_self "https://" url
        simp [normalizeUrl, hp]

/-- C8 witness. -/
theorem normalizeUrl_idempotent_witness :
    (pyStartsWith "http://a.com" "http://" = true ∨
      pyStartsWith "http://a.com" "https://" = true) ∧
    normalizeUrl "http://a.com" = "http://a.com" ∧
    normalizeUrl (normalizeUrl "a.com") = normalizeUrl "a.com" :=
  ⟨Or.inl (by decide),
   normalizeUrl_idempotent.1 "http://a.com" (Or.inl (by decide)),
   normalizeUrl_idempotent.2 "a.com"⟩

/-- C10: the scheme test is case-sensitive — `"HTTP://example.com"`
fails both prefix tests, so `https://` is prepended to the entire input
and `"https://HTTP://example.com"` is both transmitted in the request
body and echoed in the success summary. -/
theorem run_case_sensitive_scheme (k c : String) (im : Bool) (hk : k ≠ "") :
    pyStartsWith "HTTP://example.com" "http://" = false ∧
    pyStartsWith "HTTP://example.com" "https://" = false ∧
    normalizeUrl "HTTP://example.com" = "https://HTTP://example.com" ∧
    ((SerperScrapeToolMaz._run "HTTP://example.com" im
        ⟨some k, .parsed (.obj [("text", Json.str c)])⟩).2.map fun r => r.body.url) =
      ["https://HTTP://example.com"] ∧
    (SerperScrapeToolMaz._run "HTTP://example.com" im
        ⟨some k, .parsed (.obj [("text", Json.str c)])⟩).1 =
      successString "https://HTTP://example.com" im c := by
  have hn : normalizeUrl "HTTP://example.com" = "https://HTTP://example.com" := rfl
  refine ⟨rfl, rfl, hn, ?_, ?_⟩
  · rw [run_eq_of_key _ _ _ _ hk]
    simp [hn]
  · rw [run_eq_of_key _ _ _ _ hk]
    simp [SerperScrapeToolMaz.tryBody, jsonMember, jsonIndex, formatContent, hn]

/-- C10 witness. -/
theorem run_case_sensitive_scheme_witness :
    (("K" : String) ≠ "") ∧
    normalizeUrl "HTTP://example.com" = "https://HTTP://example.com" ∧
    ((SerperScrapeToolMaz._run "HTTP://example.com" true
        ⟨some "K", .parsed (.obj [("text", Json.str "x")])⟩).2.map fun r => r.body.url) =
      ["https://HTTP://example.com"] ∧
    (SerperScrapeToolMaz._run "HTTP://example.com" true
        ⟨some "K", .parsed (.obj [("text", Json.str "x")])⟩).1 =
      successString "https://HTTP://example.com" true "x" := by
  have h := run_case_sensitive_scheme "K" "x" true (by decide)
  exact ⟨by decide, h.2.2.1, h.2.2.2.1, h.2.2.2.2⟩

end SerperScrape
